import Mathlib

/-!
Shallow embedding of `src/mundimonium/layers/coordinates/isometric.py`.

Numbers are modelled as rationals (`ℚ`): the source works with Python numbers
and every constant it uses (`0.5`, sums, differences) is exact in `ℚ`.
The square root in `isometric_distance` is irrational, so distance results are
modelled as squared distances; no claim below concerns the numeric value of a
distance, only the control flow that produces it.

Python object identity (`is`) on grids is modelled by giving each grid an `id`
field and using structural equality; distinct grid objects receive distinct ids.
The external mesh collaborator (which supplies `is_adjacent_to_face` and
`direction_away_from_face`) is modelled as a `Mesh` record of those two
functions.
-/

namespace Mundimonium

/-- Exceptions the source can raise, by Python exception class. -/
inductive Err
  | assertionError
  | valueError
  | nameError
  | notImplementedError
  deriving DecidableEq, Repr

/-- Squared version of `isometric_distance` (the source returns
`sqrt(c1**2 + c2**2 - c1*c2)`; the square root is dropped, see the file
comment). -/
def isometric_distance_sq (component_axis_1 component_axis_2 : ℚ) : ℚ :=
  component_axis_1 ^ 2 + component_axis_2 ^ 2 -
    component_axis_1 * component_axis_2

inductive IsometricDirection
  | B
  | S
  | D
  deriving DecidableEq, Repr

namespace IsometricDirection

/-- `IsometricDirection.value` in the source: `B = 0`, `S = 1`, `D = 2`. -/
def value : IsometricDirection → Int
  | .B => 0
  | .S => 1
  | .D => 2

/-- `IsometricDirection(n)` for `n` already reduced mod 3 (the source only ever
constructs directions from `(...) % 3`; Python `%` on a positive modulus and
Lean `Int.emod` agree, both returning a value in `{0, 1, 2}`). -/
def ofValue : Int → IsometricDirection
  | 1 => .S
  | 2 => .D
  | _ => .B

def rotated_cw_by_index (d : IsometricDirection) (index : Int) :
    IsometricDirection :=
  ofValue ((d.value + index) % 3)

def rotated_ccw_by_index (d : IsometricDirection) (index : Int) :
    IsometricDirection :=
  ofValue ((d.value - index) % 3)

end IsometricDirection

/-- Sanity check that Lean's `%` on `Int` matches Python's `%` for the negative
arguments `rotated_ccw_by_index` can produce. -/
example : ((-1 : Int) % 3) = 2 := by decide

example : IsometricDirection.B.rotated_ccw_by_index 1 = IsometricDirection.D :=
  by decide

/-- The `IsometricGrid` abstract base class: concrete grids supply the three
geometric constants. The `id` field models Python object identity (`is`):
distinct grid objects are given distinct ids. -/
structure IsometricGrid where
  id : Nat
  side_length : ℚ
  apothem : ℚ
  altitude : ℚ
  deriving DecidableEq, Repr

/-- The external mesh collaborator: concrete grid implementations delegate
`is_adjacent_to_face` and `direction_away_from_face` to it. -/
structure Mesh where
  is_adjacent_to_face : IsometricGrid → IsometricGrid → Bool
  direction_away_from_face : IsometricGrid → IsometricGrid → IsometricDirection

/-- State of an `IsometricPoint`: the grid reference and the two stored axis
coordinates `_b` and `_s` (the third axis `d` is derived). -/
structure IsometricPoint where
  grid : IsometricGrid
  _b : ℚ
  _s : ℚ
  deriving DecidableEq, Repr

/-- State of an `IsometricVector`: the two stored scalar components. The
length cache (`_cached_length` / `_length_dirty`) is omitted: it is a
memoisation of an irrational square root and no claim concerns it. -/
structure IsometricVector where
  _b_component : ℚ
  _s_component : ℚ
  deriving DecidableEq, Repr

namespace IsometricPoint

/-- Property getter `b`. -/
def b (p : IsometricPoint) : ℚ := p._b

/-- Property getter `s`. -/
def s (p : IsometricPoint) : ℚ := p._s

/-- Property getter `d`: `self.grid.altitude - self._b - self._s`. -/
def d (p : IsometricPoint) : ℚ := p.grid.altitude - p._b - p._s

/-- Property setter `b`: `self._s -= 0.5 * (b - self._b); self._b = b`. -/
def set_b (p : IsometricPoint) (b : ℚ) : IsometricPoint :=
  { p with _s := p._s - 0.5 * (b - p._b), _b := b }

/-- Property setter `s`: `self._b -= 0.5 * (s - self._s); self._s = s`. -/
def set_s (p : IsometricPoint) (s : ℚ) : IsometricPoint :=
  { p with _b := p._b - 0.5 * (s - p._s), _s := s }

/-- Property setter `d`:
`delta = 0.5 * (d - self.d); self._b -= delta; self._s -= delta`. -/
def set_d (p : IsometricPoint) (d : ℚ) : IsometricPoint :=
  let delta := 0.5 * (d - p.d)
  { p with _b := p._b - delta, _s := p._s - delta }

/-- Classmethod `center`: the point `(grid.apothem, grid.apothem)`. -/
def center (grid : IsometricGrid) : IsometricPoint :=
  ⟨grid, grid.apothem, grid.apothem⟩

/-- `argc(b, s, d)` from `mundimonium.utils.helper_functions`: the number of
non-`None` arguments. -/
def argc (b s d : Option ℚ) : Nat :=
  (if b.isSome then 1 else 0) + (if s.isSome then 1 else 0) +
    (if d.isSome then 1 else 0)

/-- `move_to(b?, s?, d?)`. The `assert argc(b, s, d) == 2` raises
`AssertionError` (before any mutation) unless exactly two arguments are given.
Each branch assigns through the coupling property setters, and the branches
that derive an axis use `self.grid.side_length`, exactly as the source does. -/
def move_to (p : IsometricPoint) (b s d : Option ℚ) :
    Except Err IsometricPoint :=
  if argc b s d ≠ 2 then .error .assertionError
  else
    match b, s, d with
    | none, some sv, some dv =>
        .ok ((p.set_b (p.grid.side_length - sv - dv)).set_s sv)
    | some bv, none, some dv =>
        .ok ((p.set_b bv).set_s (p.grid.side_length - bv - dv))
    | some bv, some sv, _ =>
        .ok ((p.set_b bv).set_s sv)
    | _, _, _ => .error .assertionError

/-- Classmethod `at_coordinates`: constructs `cls(grid, 0, 0)` and calls
`move_to(b, s, d)` on it. -/
def at_coordinates (grid : IsometricGrid) (b s d : Option ℚ) :
    Except Err IsometricPoint :=
  (IsometricPoint.mk grid 0 0).move_to b s d

/-- `__getitem__` for a key that is a genuine `IsometricDirection` (the
`ValueError` branch is unreachable for a well-typed key). -/
def get (p : IsometricPoint) : IsometricDirection → ℚ
  | .B => p.b
  | .S => p.s
  | .D => p.d

/-- `__setitem__` for a key that is a genuine `IsometricDirection`. -/
def setItem (p : IsometricPoint) : IsometricDirection → ℚ → IsometricPoint
  | .B, v => p.set_b v
  | .S, v => p.set_s v
  | .D, v => p.set_d v

/-- `project_onto_adjacent_grid`. -/
def project_onto_adjacent_grid (mesh : Mesh) (p : IsometricPoint)
    (adjacent_grid : IsometricGrid) : IsometricPoint :=
  if adjacent_grid = p.grid then ⟨p.grid, p.b, p.s⟩
  else
    let altitude_mean := (adjacent_grid.altitude + p.grid.altitude) / 2
    let old_border_edge := mesh.direction_away_from_face p.grid adjacent_grid
    let new_border_edge := mesh.direction_away_from_face adjacent_grid p.grid
    let local_complement_of_new_b :=
      old_border_edge.rotated_ccw_by_index new_border_edge.value
    let local_complement_of_new_s :=
      local_complement_of_new_b.rotated_cw_by_index 1
    let projected_point := IsometricPoint.mk adjacent_grid
      (altitude_mean - p.get local_complement_of_new_b)
      (altitude_mean - p.get local_complement_of_new_s)
    match new_border_edge with
    | .B => { projected_point with _b := projected_point._b - altitude_mean }
    | .S => { projected_point with _s := projected_point._s - altitude_mean }
    | .D => projected_point

end IsometricPoint

namespace IsometricVector

/-- Property getter `b_component` (NOT the net change in B). -/
def b_component (v : IsometricVector) : ℚ := v._b_component

/-- Property getter `s_component` (NOT the net change in S). -/
def s_component (v : IsometricVector) : ℚ := v._s_component

/-- Property getter `d_component`: constrained to `0`. -/
def d_component (_v : IsometricVector) : ℚ := 0

/-- Property getter `delta_b`:
`self._b_component - 0.5 * self._s_component`. -/
def delta_b (v : IsometricVector) : ℚ :=
  v._b_component - 0.5 * v._s_component

/-- Property getter `delta_s` as the source actually binds it. The source
decorates the `delta_s` setter function with `@delta_b.setter`, which rebinds
the class attribute `delta_s` to a property whose GETTER is `delta_b`'s
getter; the getter written at the earlier `delta_s` property (returning
`self._s_component - 0.5 * self._b_component`, see `delta_s_body`) is
clobbered. Reading `v.delta_s` therefore returns
`v._b_component - 0.5 * v._s_component`. -/
def delta_s (v : IsometricVector) : ℚ :=
  v._b_component - 0.5 * v._s_component

/-- The getter body written under the `delta_s` property in the source
(`self._s_component - 0.5 * self._b_component`), unreachable at runtime
because the later `@delta_b.setter` decoration clobbers it (see `delta_s`). -/
def delta_s_body (v : IsometricVector) : ℚ :=
  v._s_component - 0.5 * v._b_component

/-- Property getter `delta_d`:
`-0.5 * (self._b_component + self._s_component)`. -/
def delta_d (v : IsometricVector) : ℚ :=
  -0.5 * (v._b_component + v._s_component)

/-- Property setter `b_component`:
`self._s_component -= 0.5 * (b_component - self._b_component);
self._b_component = b_component` (the `_length_dirty` write is omitted with
the cache). -/
def set_b_component (v : IsometricVector) (bc : ℚ) : IsometricVector :=
  { v with _s_component := v._s_component - 0.5 * (bc - v._b_component),
           _b_component := bc }

/-- Property setter `s_component`. -/
def set_s_component (v : IsometricVector) (sc : ℚ) : IsometricVector :=
  { v with _b_component := v._b_component - 0.5 * (sc - v._s_component),
           _s_component := sc }

/-- Property setter `d_component`: raises `NotImplementedError`. -/
def set_d_component (_v : IsometricVector) (_dc : ℚ) :
    Except Err IsometricVector :=
  .error .notImplementedError

/-- Property setter `delta_b`:
`self.b_component += (delta_b - self.delta_b)` — an assignment through the
coupling `b_component` setter. -/
def set_delta_b (v : IsometricVector) (x : ℚ) : IsometricVector :=
  v.set_b_component (v.b_component + (x - v.delta_b))

/-- The setter bound to the `delta_s` property:
`self.s_component += (delta_s - self.delta_s)`, where `self.delta_s` reads
the clobbered getter (see `delta_s`). -/
def set_delta_s (v : IsometricVector) (x : ℚ) : IsometricVector :=
  v.set_s_component (v.s_component + (x - v.delta_s))

/-- Property setter `delta_d`:
`delta_delta_b_s = 0.5 * (delta_d - self.delta_d)` subtracted from both raw
components. -/
def set_delta_d (v : IsometricVector) (x : ℚ) : IsometricVector :=
  let delta_delta_b_s := 0.5 * (x - v.delta_d)
  { v with _b_component := v._b_component - delta_delta_b_s,
           _s_component := v._s_component - delta_delta_b_s }

/-- Classmethod `with_net_b_s`:
`IsometricVector(delta_b - 0.5*delta_s, delta_s - 0.5*delta_b)`. -/
def with_net_b_s (delta_b delta_s : ℚ) : IsometricVector :=
  ⟨delta_b - 0.5 * delta_s, delta_s - 0.5 * delta_b⟩

/-- Classmethod `with_net_b_d`. -/
def with_net_b_d (delta_b delta_d : ℚ) : IsometricVector :=
  ⟨delta_b - 0.5 * delta_d, -0.5 * (delta_b + delta_d)⟩

/-- Classmethod `with_net_s_d`. -/
def with_net_s_d (delta_s delta_d : ℚ) : IsometricVector :=
  ⟨-0.5 * (delta_s + delta_d), delta_s - 0.5 * delta_d⟩

/-- `__add__` on vectors: component-wise. -/
def add (v w : IsometricVector) : IsometricVector :=
  ⟨v._b_component + w.b_component, v._s_component + w.s_component⟩

/-- `__sub__` on vectors: component-wise. -/
def sub (v w : IsometricVector) : IsometricVector :=
  ⟨v._b_component - w.b_component, v._s_component - w.s_component⟩

/-- `__mul__` by a scalar. -/
def mul (v : IsometricVector) (scalar : ℚ) : IsometricVector :=
  ⟨v._b_component * scalar, v._s_component * scalar⟩

end IsometricVector

namespace IsometricPoint

/-- `_sub_point`:
`IsometricVector.with_net_b_s(self.b - other.b, self.s - other.s)` — note
that no grid comparison of any kind is performed. -/
def sub_point (p other : IsometricPoint) : IsometricVector :=
  IsometricVector.with_net_b_s (p.b - other.b) (p.s - other.s)

/-- `_sub_vector`. -/
def sub_vector (p : IsometricPoint) (v : IsometricVector) : IsometricPoint :=
  ⟨p.grid, p.b - v.delta_b, p.s - v.delta_s⟩

/-- The body of `__add__` once the operand has passed the type assertion:
`IsometricPoint(self.grid, self.b + other.delta_b, self.s + other.delta_s)`
(where `delta_s` is the clobbered getter, see `IsometricVector.delta_s`). -/
def add_vector (p : IsometricPoint) (v : IsometricVector) : IsometricPoint :=
  ⟨p.grid, p.b + v.delta_b, p.s + v.delta_s⟩

end IsometricPoint

/-- The dynamic type of the right operand of `IsometricPoint.__add__`. A
`tag` stands for any Python object that is neither an `IsometricPoint` nor an
`IsometricVector`. -/
inductive AddOperand
  | point (q : IsometricPoint)
  | vector (v : IsometricVector)
  | other (tag : Nat)
  deriving DecidableEq, Repr

namespace IsometricPoint

/-- `__add__`: `assert type(other) is IsometricVector` raises
`AssertionError` for every operand that is not exactly an `IsometricVector`;
otherwise a fresh point on `self.grid` is returned. -/
def addOp (p : IsometricPoint) : AddOperand → Except Err IsometricPoint
  | .vector v => .ok (p.add_vector v)
  | _ => .error .assertionError

/-- The same-grid branch of `distance_from`, squared (see the file comment):
`isometric_distance(b_component - 0.5*s_component,
s_component - 0.5*b_component)` for the raw coordinate deltas. -/
def same_grid_distance_sq (p other : IsometricPoint) : ℚ :=
  let b_component := other.b - p.b
  let s_component := other.s - p.s
  isometric_distance_sq (b_component - 0.5 * s_component)
    (s_component - 0.5 * b_component)

/-- `geodesic_distance_from`: the source RETURNS (does not raise) a
`NotImplementedError` instance; the result of a call is the exception object
itself, modelled as the corresponding `Err` value. -/
def geodesic_distance_from (_self _other : IsometricPoint) : Err :=
  .notImplementedError

/-- `distance_from`, with squared distances in the `ok` branches. The
adjacent-grid branch projects `self` onto `other.grid` and recurses; the
projected point's grid IS `other.grid`, so the recursive call always takes the
same-grid branch and is inlined here. The final branch of the source reads
`return geodesic_distance_from(other)` — a bare name that is not defined at
module scope — so evaluating it raises `NameError` before any distance logic
can run. -/
def distance_from (mesh : Mesh) (p other : IsometricPoint) : Except Err ℚ :=
  if p.grid = other.grid then .ok (p.same_grid_distance_sq other)
  else if mesh.is_adjacent_to_face p.grid other.grid then
    .ok ((p.project_onto_adjacent_grid mesh other.grid).same_grid_distance_sq
      other)
  else .error .nameError

end IsometricPoint

namespace IsometricVector

/-- Classmethod `between_points`: `end._sub_point(start)`. -/
def between_points (start finish : IsometricPoint) : IsometricVector :=
  finish.sub_point start

end IsometricVector

/-- One observable mutation of (or arithmetic step from) a point: the three
axis property setters, `__setitem__`, `move_to`, and the point ± vector
operations. -/
inductive PointOp
  | set_b (v : ℚ)
  | set_s (v : ℚ)
  | set_d (v : ℚ)
  | setItem (k : IsometricDirection) (v : ℚ)
  | move_to (b s d : Option ℚ)
  | add_vector (v : IsometricVector)
  | sub_vector (v : IsometricVector)

/-- Apply one `PointOp`. A `move_to` whose argument-count assertion fires
raises before mutating anything, so the observable point is unchanged. -/
def applyPointOp (p : IsometricPoint) : PointOp → IsometricPoint
  | .set_b v => p.set_b v
  | .set_s v => p.set_s v
  | .set_d v => p.set_d v
  | .setItem k v => p.setItem k v
  | .move_to b s d =>
      match p.move_to b s d with
      | .ok q => q
      | .error _ => p
  | .add_vector v => p.add_vector v
  | .sub_vector v => p.sub_vector v

/-- Concrete grid fixtures (distinct `id`s model distinct Python objects). -/
def gridA : IsometricGrid := ⟨0, 8, 4, 12⟩

def gridB : IsometricGrid := ⟨1, 10, 5, 15⟩

/-- A mesh in which every pair of grids is adjacent; `gridA`'s border toward
any neighbour is labelled `B` and any other grid's border is labelled `S`. -/
def meshAdj : Mesh :=
  { is_adjacent_to_face := fun _ _ => true
  , direction_away_from_face := fun g _ =>
      if g.id = 0 then .B else .S }

/-- A mesh in which no pair of grids is adjacent. -/
def meshNone : Mesh :=
  { is_adjacent_to_face := fun _ _ => false
  , direction_away_from_face := fun _ _ => .B }

/-- Every point observably satisfies the constant-sum relation, because `d`
is derived from `b`, `s` and the grid altitude. -/
theorem point_coordinate_sum (p : IsometricPoint) :
    p.b + p.s + p.d = p.grid.altitude := by
  simp only [IsometricPoint.b, IsometricPoint.s, IsometricPoint.d]
  ring

/-- C1: for every `IsometricPoint` — however constructed — and after any
sequence of axis mutations (`b`/`s`/`d` setters, `__setitem__`, `move_to`)
and point ± vector steps, the observable axis values satisfy
`b + s + d = grid.altitude`; the invariant is never observably violated. -/
theorem point_invariant_after_any_ops (p : IsometricPoint)
    (ops : List PointOp) :
    (ops.foldl applyPointOp p).b + (ops.foldl applyPointOp p).s +
        (ops.foldl applyPointOp p).d =
      (ops.foldl applyPointOp p).grid.altitude :=
  point_coordinate_sum _

/-- C2 (violated by the source): for the vector with raw components
`(1, 0)`, the observable sum `delta_b + delta_s + delta_d` is `3/2`, not `0`
— the `delta_s` getter was clobbered by the `@delta_b.setter` decoration. -/
theorem vector_delta_sum_violated :
    (IsometricVector.mk 1 0).delta_b + (IsometricVector.mk 1 0).delta_s +
        (IsometricVector.mk 1 0).delta_d = 3 / 2 ∧
    (3 / 2 : ℚ) ≠ 0 := by
  constructor
  · norm_num [IsometricVector.delta_b, IsometricVector.delta_s,
      IsometricVector.delta_d]
  · norm_num

/-- C3 (violated by the source): on the vector with raw components `(1, 0)`,
reading `delta_s` yields `1` (namely `b_component - 0.5*s_component`, the
clobbered getter), while the claimed formula
`s_component - 0.5*b_component` yields `-1/2`. -/
theorem delta_s_getter_clobbered :
    (IsometricVector.mk 1 0).delta_s = 1 ∧
    (IsometricVector.mk 1 0).s_component -
        0.5 * (IsometricVector.mk 1 0).b_component = -(1 / 2) ∧
    (IsometricVector.mk 1 0).delta_s ≠
      (IsometricVector.mk 1 0).s_component -
        0.5 * (IsometricVector.mk 1 0).b_component := by
  refine ⟨?_, ?_, ?_⟩ <;>
    norm_num [IsometricVector.delta_s, IsometricVector.s_component,
      IsometricVector.b_component]

/-- C4, counterexample: on the vector with raw components `(1, 0)`, setting
`delta_b` to `2` (requested delta `Δ = 1`) changes `delta_d` by `-1/4`, not
by `-0.5·Δ = -1/2`. -/
theorem vector_delta_setter_coupling_cex :
    ((IsometricVector.mk 1 0).set_delta_b 2).delta_d -
        (IsometricVector.mk 1 0).delta_d ≠
      -0.5 * (2 - (IsometricVector.mk 1 0).delta_b) := by
  norm_num [IsometricVector.set_delta_b, IsometricVector.set_b_component,
    IsometricVector.b_component, IsometricVector.delta_b,
    IsometricVector.delta_d]

/-- C4, amended: on Points, setting any one axis to `x` (with
`Δ = x - old`) reaches `x` and changes each of the other two axes by exactly
`-0.5·Δ`; on Vectors this coupling holds only for the `delta_d` setter, and
with `Δ` taken as the actual change of `delta_d` produced by the setter. -/
theorem axis_setter_coupling (p : IsometricPoint) (v : IsometricVector)
    (x : ℚ) :
    ((p.set_b x).b = x ∧ (p.set_b x).s = p.s - 0.5 * (x - p.b) ∧
      (p.set_b x).d = p.d - 0.5 * (x - p.b)) ∧
    ((p.set_s x).s = x ∧ (p.set_s x).b = p.b - 0.5 * (x - p.s) ∧
      (p.set_s x).d = p.d - 0.5 * (x - p.s)) ∧
    ((p.set_d x).d = x ∧ (p.set_d x).b = p.b - 0.5 * (x - p.d) ∧
      (p.set_d x).s = p.s - 0.5 * (x - p.d)) ∧
    ((v.set_delta_d x).delta_b =
        v.delta_b - 0.5 * ((v.set_delta_d x).delta_d - v.delta_d) ∧
      (v.set_delta_d x).delta_s =
        v.delta_s - 0.5 * ((v.set_delta_d x).delta_d - v.delta_d)) := by
  refine ⟨⟨?_, ?_, ?_⟩, ⟨?_, ?_, ?_⟩, ⟨?_, ?_, ?_⟩, ?_, ?_⟩ <;>
    simp only [IsometricPoint.set_b, IsometricPoint.set_s,
      IsometricPoint.set_d, IsometricPoint.b, IsometricPoint.s,
      IsometricPoint.d, IsometricVector.set_delta_d, IsometricVector.delta_b,
      IsometricVector.delta_s, IsometricVector.delta_d] <;>
    ring

/-- C5 (violated by the source): `at_coordinates(gridA, b=5, s=3)` (with
`gridA.altitude = 12`) produces the point `(9/4, 3)` — `move_to` assigns
through the coupling setters instead of resetting — whose `d` is `27/4`,
whereas the claim requires `b = 5`, `s = 3`,
`d = altitude - 8 = 4`. -/
theorem at_coordinates_not_full_reset :
    IsometricPoint.at_coordinates gridA (some 5) (some 3) none =
      Except.ok (IsometricPoint.mk gridA (9 / 4) 3) ∧
    (IsometricPoint.mk gridA (9 / 4) 3).d = 27 / 4 ∧
    gridA.altitude - 8 = 4 ∧ (27 / 4 : ℚ) ≠ 4 := by
  refine ⟨?_, ?_, ?_, ?_⟩
  · norm_num [IsometricPoint.at_coordinates, IsometricPoint.move_to,
      IsometricPoint.argc, IsometricPoint.set_b, IsometricPoint.set_s,
      IsometricPoint.mk.injEq]
  · norm_num [IsometricPoint.d, gridA]
  · norm_num [gridA]
  · norm_num

/-- C6 (violated by the source): on `gridA`, with `p = (0, 0)` and
`q = (1, 0)`, `p + Vector.between_points(p, q)` evaluates to `(5/4, 5/4)`,
which differs from `q` — `with_net_b_s` applies the component→delta transform
instead of its inverse, and the `delta_s` getter is clobbered. -/
theorem vector_reconstruction_fails :
    (IsometricPoint.mk gridA 0 0).addOp
        (.vector (IsometricVector.between_points (IsometricPoint.mk gridA 0 0)
          (IsometricPoint.mk gridA 1 0))) =
      Except.ok (IsometricPoint.mk gridA (5 / 4) (5 / 4)) ∧
    IsometricPoint.mk gridA (5 / 4) (5 / 4) ≠ IsometricPoint.mk gridA 1 0 := by
  constructor
  · norm_num [IsometricPoint.addOp, IsometricPoint.add_vector,
      IsometricVector.between_points, IsometricPoint.sub_point,
      IsometricVector.with_net_b_s, IsometricPoint.b, IsometricPoint.s,
      IsometricVector.delta_b, IsometricVector.delta_s,
      IsometricPoint.mk.injEq]
  · norm_num [IsometricPoint.mk.injEq]

/-- C7: for mutually adjacent grids (and whatever edge labels the mesh
assigns in each frame), projecting a point onto the adjacent grid and
projecting the result back yields exactly the original `b` and `s`
coordinates (exact rational arithmetic; the altitudes of the two grids are
arbitrary). -/
theorem projection_round_trip (mesh : Mesh) (p : IsometricPoint)
    (g : IsometricGrid)
    (hAB : mesh.is_adjacent_to_face p.grid g = true)
    (hBA : mesh.is_adjacent_to_face g p.grid = true) :
    ((p.project_onto_adjacent_grid mesh g).project_onto_adjacent_grid mesh
        p.grid).b = p.b ∧
    ((p.project_onto_adjacent_grid mesh g).project_onto_adjacent_grid mesh
        p.grid).s = p.s := by
  by_cases hg : g = p.grid
  · subst hg
    simp [IsometricPoint.project_onto_adjacent_grid, IsometricPoint.b,
      IsometricPoint.s]
  · have hg' : ¬ p.grid = g := fun h => hg h.symm
    rcases p with ⟨pg, pb, ps⟩
    rcases h1 : mesh.direction_away_from_face pg g with _ | _ | _ <;>
      rcases h2 : mesh.direction_away_from_face g pg with _ | _ | _ <;>
      simp [IsometricPoint.project_onto_adjacent_grid, IsometricPoint.get,
        IsometricPoint.b, IsometricPoint.s, IsometricPoint.d,
        IsometricDirection.rotated_ccw_by_index,
        IsometricDirection.rotated_cw_by_index,
        IsometricDirection.value, IsometricDirection.ofValue, h1, h2, hg,
        hg'] <;>
      ring_nf <;> trivial

/-- Witness for `projection_round_trip`: the point `(1, 2)` on `gridA`
projected onto `gridB` (adjacent both ways under `meshAdj`) and back. -/
theorem projection_round_trip_witness :
    meshAdj.is_adjacent_to_face (IsometricPoint.mk gridA 1 2).grid gridB =
        true ∧
    meshAdj.is_adjacent_to_face gridB (IsometricPoint.mk gridA 1 2).grid =
        true ∧
    ((((IsometricPoint.mk gridA 1 2).project_onto_adjacent_grid meshAdj
          gridB).project_onto_adjacent_grid meshAdj
        (IsometricPoint.mk gridA 1 2).grid).b =
      (IsometricPoint.mk gridA 1 2).b ∧
    (((IsometricPoint.mk gridA 1 2).project_onto_adjacent_grid meshAdj
          gridB).project_onto_adjacent_grid meshAdj
        (IsometricPoint.mk gridA 1 2).grid).s =
      (IsometricPoint.mk gridA 1 2).s) :=
  ⟨rfl, rfl,
    projection_round_trip meshAdj (IsometricPoint.mk gridA 1 2) gridB rfl rfl⟩

/-- C8 (violated by the source): for points on non-identical, non-adjacent
grids, `distance_from` raises `NameError` — its final branch evaluates the
bare, undefined name `geodesic_distance_from` — rather than signalling a
`NotImplemented` condition; and `geodesic_distance_from` itself returns (does
not raise) the `NotImplementedError` object. -/
theorem distance_non_adjacent_raises_name_error :
    IsometricPoint.distance_from meshNone (IsometricPoint.mk gridA 1 1)
        (IsometricPoint.mk gridB 2 2) = Except.error Err.nameError ∧
    Err.nameError ≠ Err.notImplementedError ∧
    IsometricPoint.geodesic_distance_from (IsometricPoint.mk gridA 1 1)
        (IsometricPoint.mk gridB 2 2) = Err.notImplementedError := by
  have hgrid : (IsometricPoint.mk gridA 1 1).grid ≠
      (IsometricPoint.mk gridB 2 2).grid := by
    simp [gridA, gridB]
  refine ⟨?_, by decide, rfl⟩
  simp [IsometricPoint.distance_from, hgrid, meshNone]

/-- C9, counterexample: for `p = (0, 0)` on `gridA` and `q = (1, 0)` on the
different grid `gridB`, `between_points(p, q)` does not fail: it returns the
vector with raw components `(1, -1/2)`. -/
theorem between_points_cross_grid_returns :
    (IsometricPoint.mk gridA 0 0).grid ≠ (IsometricPoint.mk gridB 1 0).grid ∧
    IsometricVector.between_points (IsometricPoint.mk gridA 0 0)
        (IsometricPoint.mk gridB 1 0) = IsometricVector.mk 1 (-(1 / 2)) := by
  constructor
  · simp [gridA, gridB]
  · norm_num [IsometricVector.between_points, IsometricPoint.sub_point,
      IsometricVector.with_net_b_s, IsometricPoint.b, IsometricPoint.s,
      IsometricVector.mk.injEq]

/-- C9, amended: `between_points` (and the underlying point − point
difference) performs no grid check at all: for every pair of points, on the
same grid or not, it succeeds and returns
`with_net_b_s(q.b - p.b, q.s - p.s)`, a result that depends only on the
coordinates and not on either grid. -/
theorem between_points_ignores_grids (p q : IsometricPoint)
    (g : IsometricGrid) :
    IsometricVector.between_points p q =
      IsometricVector.with_net_b_s (q.b - p.b) (q.s - p.s) ∧
    IsometricVector.between_points (IsometricPoint.mk g p.b p.s)
        (IsometricPoint.mk g q.b q.s) =
      IsometricVector.between_points p q :=
  ⟨rfl, rfl⟩

/-- C10: `__add__` is type-guarded: adding an `IsometricVector` never fails
and returns a fresh point on the receiver's grid, while adding an
`IsometricPoint` or any other object raises `AssertionError`. -/
theorem add_operand_type_guard (p q : IsometricPoint) (v : IsometricVector)
    (t : Nat) :
    p.addOp (.vector v) =
      Except.ok (IsometricPoint.mk p.grid (p.b + v.delta_b)
        (p.s + v.delta_s)) ∧
    p.addOp (.point q) = Except.error Err.assertionError ∧
    p.addOp (.other t) = Except.error Err.assertionError :=
  ⟨rfl, rfl, rfl⟩

end Mundimonium
